import Mathlib

/-!
Shallow embedding of the multi-city/multi-market scheduling and dispatch core
of the Market_Product repository: the Market Registry (`MARKET_CONFIGS`), the
Dispatcher (`run_market_scraper`), the Campaign Orchestrator
(`scrape_comprehensive_multi_city`, `scrape_specific_city_markets`) and the
Recurring Scheduler (`MultiCityScheduler.load_schedule_config`,
`get_cities_for_rotation`, `run_city_supporting_market`,
`run_single_location_market`).

Modelling conventions:
- A Python value that may be `None` is an `Option`.
- A Python expression that may raise is an `Except String` value; an
  uncaught exception is `Except.error` with a short description.
- Python truthiness of a city list (`if config['city_support'] and cities:`)
  and of an optional integer cap (`max_products or config['max_products']`)
  is modelled explicitly (`pyTruthyCities`, `pyOrKey`); the short-circuit of
  `or` (the right operand, a dict subscript that may raise KeyError, is only
  evaluated when the left operand is falsy) is preserved.
- The external scraper callables resolved by `__import__`/`getattr` are an
  environment (`ScraperEnv`): per (module, function) pair, either a
  resolution failure or a callable (`ScraperFn`) whose behaviour under each
  of the three calling conventions used by the dispatcher is arbitrary.
- `print` calls that the claims mention (warnings) are collected as lists of
  log strings; sleeps, wall-clock times and the `last_run_times` map are not
  modelled (no claim depends on them).
-/

/-- One entry of the Market Registry (`MARKET_CONFIGS` in
`comprehensive_multi_city_scraper.py`): a Python dict with a fixed shape.
Keys that are present only for some markets (`max_products_per_city`,
`max_products`, `delay_between_cities`, `delay_between_runs`) are `Option`
fields; subscripting an absent key raises KeyError. -/
structure MarketConfig where
  city_support : Bool
  scraper_module : String
  scraper_function : String
  categories : List String
  max_products_per_city : Option Nat
  max_products : Option Nat
  delay_between_cities : Option (Nat × Nat)
  delay_between_runs : Option (Nat × Nat)
deriving DecidableEq

/-- Python dict lookup (`d.get(k)` / `k in d`): first binding of the key. -/
def dictLookup {α : Type} (k : String) : List (String × α) → Option α
  | [] => none
  | (k2, v) :: rest => if k = k2 then some v else dictLookup k rest

/-- The Market Registry, transcribed from `MARKET_CONFIGS` in
`scraper/comprehensive_multi_city_scraper.py` (13 markets, in source order). -/
def MARKET_CONFIGS : List (String × MarketConfig) :=
  [ ("carrefour",
      ⟨true, "scraper.carrefour_city", "scrape_multiple_cities_carrefour",
       ["alimentacion", "bebidas", "congelados", "frescos"],
       some 40, none, some (15, 25), none⟩),
    ("mercadona",
      ⟨true, "scraper.mercadona_city", "scrape_multiple_cities_mercadona",
       ["alimentacion", "bebidas", "congelados", "frescos"],
       some 30, none, some (10, 20), none⟩),
    ("elcorte",
      ⟨false, "scraper.El_Corte_Ingles", "scrape_elcorte",
       ["aceites-y-vinagres", "arroz-legumbres-y-pasta", "azucar-cacao-y-edulcorantes"],
       none, some 100, none, some (30, 45)⟩),
    ("lidl",
      ⟨false, "scraper.lidl", "scrape_lidl",
       ["alimentacion", "bebidas"],
       none, some 80, none, some (25, 40)⟩),
    ("dia",
      ⟨false, "scraper.dia", "scrape_dia",
       ["alimentacion", "bebidas"],
       none, some 60, none, some (20, 35)⟩),
    ("consum",
      ⟨false, "scraper.consum", "scrape_consum",
       ["alimentacion", "bebidas"],
       none, some 70, none, some (25, 40)⟩),
    ("condisline",
      ⟨false, "scraper.condisline", "main",
       ["aceites-y-vinagres", "arroz-legumbres-y-pasta", "conservas"],
       none, some 50, none, some (20, 35)⟩),
    ("bonpreu",
      ⟨false, "scraper.bonpreu", "scrape_bonpreu",
       ["alimentacion", "bebidas"],
       none, some 60, none, some (20, 35)⟩),
    ("alcampo",
      ⟨false, "scraper.alcampo", "scrape_alcampo",
       ["alimentacion", "bebidas"],
       none, some 70, none, some (25, 40)⟩),
    ("bonarea",
      ⟨false, "scraper.bonarea", "scrape_bonarea",
       ["alimentacion", "bebidas"],
       none, some 50, none, some (20, 35)⟩),
    ("eroski",
      ⟨false, "scraper.eroski", "scrape_eroski",
       ["alimentacion", "bebidas"],
       none, some 60, none, some (20, 35)⟩),
    ("caprabo",
      ⟨false, "scraper.caprabo", "scrape_caprabo",
       ["alimentacion", "bebidas"],
       none, some 50, none, some (20, 35)⟩),
    ("aldi",
      ⟨false, "scraper.aldi", "scrape_aldi",
       ["alimentacion", "bebidas"],
       none, some 60, none, some (20, 35)⟩) ]

/-- An external scraper callable, as the dispatcher uses it: whether the
string `max_products` occurs among its signature parameters
(`inspect.signature`), and its behaviour under each of the three calling
conventions `run_market_scraper` can use. A call returns `Except.error` when
the Python call would raise, and otherwise the returned value (`none`
models a Python function that returns `None`). -/
structure ScraperFn where
  accepts_max_products : Bool
  call_city : List String → Nat → Except String (Option Int)
  call_max : Nat → Except String (Option Int)
  call_noargs : Except String (Option Int)

/-- The module/attribute resolution environment:
`__import__(module, fromlist=[fn])` followed by `getattr`, which either
raises (resolution failure) or yields a callable. -/
structure ScraperEnv where
  resolve : String → String → Except String ScraperFn

/-- Python truthiness of the optional city list: `None` and `[]` are falsy. -/
def pyTruthyCities : Option (List String) → Bool
  | none => false
  | some l => !l.isEmpty

/-- Subscripting an optional dict entry: `config[key]` raises KeyError when
the key is absent. -/
def keyLookup : Option Nat → Except String Nat
  | some v => Except.ok v
  | none => Except.error "KeyError"

/-- Python `max_products or config[key]`: when `max_products` is `None` or
`0` (falsy), fall through to the registry key (which may raise KeyError);
short-circuit keeps a truthy left operand from touching the key. -/
def pyOrKey (x : Option Nat) (key : Option Nat) : Except String Nat :=
  match x with
  | some n => if n = 0 then keyLookup key else Except.ok n
  | none => keyLookup key

/-- The body of the `try` block of `run_market_scraper`: resolve the scraper
callable, then invoke it under the calling convention selected by the
registry `city_support` flag and the truthiness of `cities`. -/
def runAttempt (env : ScraperEnv) (config : MarketConfig)
    (cities : Option (List String)) (max_products : Option Nat) :
    Except String (Option Int) :=
  (env.resolve config.scraper_module config.scraper_function).bind (fun f =>
    if config.city_support && pyTruthyCities cities then
      (pyOrKey max_products config.max_products_per_city).bind (fun m =>
        f.call_city (cities.getD []) m)
    else if f.accepts_max_products then
      (pyOrKey max_products config.max_products).bind (fun m => f.call_max m)
    else
      f.call_noargs)

/-- The Dispatcher `run_market_scraper(market_name, cities, max_products)`:
unknown market prints a warning and returns 0; any exception from the try
block is caught, printed and converted to 0. Result: (printed lines, the
returned Python value). -/
def run_market_scraper (env : ScraperEnv) (market_name : String)
    (cities : Option (List String)) (max_products : Option Nat) :
    List String × Option Int :=
  match dictLookup market_name MARKET_CONFIGS with
  | none => (["Unknown market: " ++ market_name], some 0)
  | some config =>
    match runAttempt env config cities max_products with
    | Except.ok v => (["Starting " ++ market_name ++ " scraper..."], v)
    | Except.error e =>
      (["Starting " ++ market_name ++ " scraper...",
        "Error running " ++ market_name ++ ": " ++ e], some 0)

/-- One dispatch performed by an orchestrator or scheduler handler: the
arguments of a `run_market_scraper` call and its returned value. -/
structure DispatchCall where
  market : String
  cities : Option (List String)
  cap : Option Nat
  result : Option Int
deriving DecidableEq

/-- Python `products or 0` as used by the accumulation loops: `None` (and
`0` itself) contribute `0`, any other integer contributes itself. -/
def pyOrZero : Option Int → Int
  | none => 0
  | some n => n

/-- One row of the city list loaded from `data/cities_es.json`. -/
structure CityInfo where
  name : String
  population : Nat
deriving DecidableEq

/-- A market loop of the Campaign Orchestrator: for each market in order,
dispatch it with the given city argument and cap, record the call and add
`products or 0` to the running total. -/
def runLoop (env : ScraperEnv) (citiesArg : Option (List String)) (cap : Nat) :
    List String → List DispatchCall × Int → List DispatchCall × Int
  | [], acc => acc
  | m :: rest, acc =>
    let r := (run_market_scraper env m citiesArg (some cap)).2
    runLoop env citiesArg cap rest
      (acc.1 ++ [⟨m, citiesArg, some cap, r⟩], acc.2 + pyOrZero r)

/-- `scrape_comprehensive_multi_city` step 1: the target city set — the
caller's list if given, else the names of cities with population above
200000, truncated to the first 8 in source order. -/
def targetCities (cities_data : List CityInfo) (cities : Option (List String)) :
    List String :=
  match cities with
  | some cs => cs
  | none =>
    (((cities_data.filter (fun c => 200000 < c.population)).map
      (fun c => c.name)).take 8)

/-- `scrape_comprehensive_multi_city` step 2: the target market set — every
registered market if the caller gave none, else the caller's list filtered
down to registered names (unknown names silently dropped). -/
def availableMarkets (markets : Option (List String)) : List String :=
  match markets with
  | none => MARKET_CONFIGS.map (fun p => p.1)
  | some ms => ms.filter (fun m => (dictLookup m MARKET_CONFIGS).isSome)

/-- `MARKET_CONFIGS[m]['city_support']` for a name known to be registered
(used after the filters of `scrape_comprehensive_multi_city`). -/
def marketCitySupport (m : String) : Bool :=
  match dictLookup m MARKET_CONFIGS with
  | some c => c.city_support
  | none => false

/-- The Campaign Orchestrator `scrape_comprehensive_multi_city`: aborts
(returns `None`) when the city data fails to load or is empty; otherwise
partitions the resolved markets into city-aware and single-location groups,
dispatches each city-aware market once over the whole target city set with
`max_products_per_city`, then each single-location market once with
`max_products_per_market`, accumulating `products or 0` into the reported
total. Result: the dispatch trace and the reported total. Sleeps and
statistics printing are not modelled. -/
def scrape_comprehensive_multi_city (env : ScraperEnv)
    (cities_data : List CityInfo) (cities : Option (List String))
    (markets : Option (List String)) (max_products_per_city : Nat)
    (max_products_per_market : Nat) : Option (List DispatchCall × Int) :=
  if cities_data.isEmpty then none
  else
    let target := targetCities cities_data cities
    let avail := availableMarkets markets
    let city_markets := avail.filter (fun m => marketCitySupport m)
    let single_markets := avail.filter (fun m => !marketCitySupport m)
    let step1 := runLoop env (some target) max_products_per_city city_markets ([], 0)
    some (runLoop env none max_products_per_market single_markets step1)

/-- The partition comprehensions of `scrape_specific_city_markets`:
`[m for m in markets if MARKET_CONFIGS[m]['city_support'] == want]` with a
direct dict subscript, so an unregistered name raises KeyError at the first
occurrence. -/
def filterBySupport (want : Bool) : List String → Except String (List String)
  | [] => Except.ok []
  | m :: rest =>
    match dictLookup m MARKET_CONFIGS with
    | none => Except.error ("KeyError: " ++ m)
    | some c =>
      if c.city_support = want then
        (filterBySupport want rest).bind (fun r => Except.ok (m :: r))
      else
        filterBySupport want rest

/-- `scrape_specific_city_markets(city, markets, max_products)`: partition
the caller-supplied market list (raising KeyError on unregistered names),
then dispatch the city-aware markets with `[city]` and the single-location
markets with no city argument, accumulating `products or 0`. -/
def scrape_specific_city_markets (env : ScraperEnv) (city : String)
    (markets : List String) (max_products : Nat) :
    Except String (List DispatchCall × Int) :=
  (filterBySupport true markets).bind (fun city_markets =>
    (filterBySupport false markets).bind (fun single_markets =>
      let step1 := runLoop env (some [city]) max_products city_markets ([], 0)
      Except.ok (runLoop env none max_products single_markets step1)))

/-- The `city_rotation` part of the scheduler configuration
(`multi_city_scheduler.py`), with the fields `get_cities_for_rotation`
reads. -/
structure CityRotationConfig where
  enabled : Bool
  major_cities : List String
  minor_cities : List String
  rotation_days : Nat
deriving DecidableEq

/-- `MultiCityScheduler.get_cities_for_rotation(day_of_week)`: the first 5
major cities when rotation is disabled or the day's cycle position
(`day_of_week % rotation_days`) is below 5, else the first 3 major cities
followed by the first 2 minor cities. -/
def get_cities_for_rotation (config : CityRotationConfig) (day_of_week : Nat) :
    List String :=
  if !config.enabled then
    config.major_cities.take 5
  else
    let cycle_position := day_of_week % config.rotation_days
    if cycle_position < 5 then
      config.major_cities.take 5
    else
      config.major_cities.take 3 ++ config.minor_cities.take 2

/-- One entry of the scheduler's `market_schedules` map, with the keys the
handlers read through `.get` with a default. -/
structure MSEntry where
  frequency : Option String
  time : Option String
  max_products_per_city : Option Nat
  max_products : Option Nat
deriving DecidableEq

/-- `market_schedules.get(market_name, ...)` falls back to an empty dict. -/
def emptyMSEntry : MSEntry := ⟨none, none, none, none⟩

/-- The two parts of the scheduler's configuration that the scheduled
handlers read. -/
structure SchedulerConfig where
  city_rotation : CityRotationConfig
  market_schedules : List (String × MSEntry)

/-- `MultiCityScheduler.run_city_supporting_market(market_name)`: warn and
perform no dispatch for an unknown market or a market registered without
city support; otherwise dispatch the market over the rotation cities of
`today` with the schedule entry's `max_products_per_city` (default 30).
Result: (printed lines, dispatches performed). -/
def run_city_supporting_market (env : ScraperEnv) (sched : SchedulerConfig)
    (today : Nat) (market_name : String) : List String × List DispatchCall :=
  let config := (dictLookup market_name sched.market_schedules).getD emptyMSEntry
  match dictLookup market_name MARKET_CONFIGS with
  | none => (["Unknown market: " ++ market_name], [])
  | some mc =>
    if !mc.city_support then
      ([market_name ++ " does not support cities, skipping city rotation"], [])
    else
      let cities := get_cities_for_rotation sched.city_rotation today
      let max_products := config.max_products_per_city.getD 30
      let r := run_market_scraper env market_name (some cities) (some max_products)
      (["Running " ++ market_name] ++ r.1 ++ [market_name ++ " completed"],
        [⟨market_name, some cities, some max_products, r.2⟩])

/-- `MultiCityScheduler.run_single_location_market(market_name)`: warn and
perform no dispatch for an unknown market or a market registered with city
support; otherwise dispatch the market with no city argument and the
schedule entry's `max_products` (default 50). -/
def run_single_location_market (env : ScraperEnv) (sched : SchedulerConfig)
    (market_name : String) : List String × List DispatchCall :=
  let config := (dictLookup market_name sched.market_schedules).getD emptyMSEntry
  match dictLookup market_name MARKET_CONFIGS with
  | none => (["Unknown market: " ++ market_name], [])
  | some mc =>
    if mc.city_support then
      ([market_name ++ " supports cities, use run_city_supporting_market instead"], [])
    else
      let max_products := config.max_products.getD 50
      let r := run_market_scraper env market_name none (some max_products)
      (["Running " ++ market_name] ++ r.1 ++ [market_name ++ " completed"],
        [⟨market_name, none, some max_products, r.2⟩])

/-- A JSON-like Python value, for the top-level configuration dictionaries
handled by `load_schedule_config`. -/
inductive JVal where
  | jstr (s : String)
  | jnat (n : Nat)
  | jbool (b : Bool)
  | jlist (xs : List JVal)
  | jobj (fields : List (String × JVal))

/-- Python `{**a, **b}` on dicts: keys of `a` keep their position with the
value overridden by `b` when `b` has the key; keys only in `b` follow. -/
def pyDictMerge (a b : List (String × JVal)) : List (String × JVal) :=
  a.map (fun p => (p.1, (dictLookup p.1 b).getD p.2)) ++
    b.filter (fun q => (dictLookup q.1 a).isNone)

/-- The built-in `default_config` of
`MultiCityScheduler.load_schedule_config`, transcribed. -/
def default_config : List (String × JVal) :=
  [ ("city_rotation", JVal.jobj
      [ ("enabled", JVal.jbool true),
        ("major_cities", JVal.jlist
          [JVal.jstr "Madrid", JVal.jstr "Barcelona", JVal.jstr "Valencia",
           JVal.jstr "Sevilla", JVal.jstr "Bilbao", JVal.jstr "Malaga",
           JVal.jstr "Zaragoza"]),
        ("minor_cities", JVal.jlist
          [JVal.jstr "Murcia", JVal.jstr "Palma", JVal.jstr "Las Palmas",
           JVal.jstr "Alicante", JVal.jstr "Cordoba", JVal.jstr "Valladolid"]),
        ("rotation_days", JVal.jnat 7) ]),
    ("market_schedules", JVal.jobj
      [ ("carrefour", JVal.jobj
          [("frequency", JVal.jstr "daily"), ("time", JVal.jstr "09:00"),
           ("max_products_per_city", JVal.jnat 40)]),
        ("mercadona", JVal.jobj
          [("frequency", JVal.jstr "daily"), ("time", JVal.jstr "10:30"),
           ("max_products_per_city", JVal.jnat 30)]),
        ("lidl", JVal.jobj
          [("frequency", JVal.jstr "daily"), ("time", JVal.jstr "12:00"),
           ("max_products", JVal.jnat 80)]),
        ("dia", JVal.jobj
          [("frequency", JVal.jstr "daily"), ("time", JVal.jstr "13:30"),
           ("max_products", JVal.jnat 60)]),
        ("consum", JVal.jobj
          [("frequency", JVal.jstr "daily"), ("time", JVal.jstr "15:00"),
           ("max_products", JVal.jnat 70)]),
        ("elcorte", JVal.jobj
          [("frequency", JVal.jstr "daily"), ("time", JVal.jstr "16:30"),
           ("max_products", JVal.jnat 100)]),
        ("condisline", JVal.jobj
          [("frequency", JVal.jstr "daily"), ("time", JVal.jstr "18:00"),
           ("max_products", JVal.jnat 50)]),
        ("bonpreu", JVal.jobj
          [("frequency", JVal.jstr "daily"), ("time", JVal.jstr "19:30"),
           ("max_products", JVal.jnat 60)]),
        ("alcampo", JVal.jobj
          [("frequency", JVal.jstr "daily"), ("time", JVal.jstr "21:00"),
           ("max_products", JVal.jnat 70)]) ]),
    ("comprehensive_runs", JVal.jobj
      [ ("enabled", JVal.jbool true),
        ("frequency", JVal.jstr "weekly"),
        ("day", JVal.jstr "sunday"),
        ("time", JVal.jstr "08:00"),
        ("max_cities", JVal.jnat 5),
        ("max_products_per_city", JVal.jnat 25) ]) ]

/-- `MultiCityScheduler.load_schedule_config`: when reading the persisted
file raises FileNotFoundError (`stored = none`), return the defaults; else
return `{**default_config, **config}`. -/
def load_schedule_config (stored : Option (List (String × JVal))) :
    List (String × JVal) :=
  match stored with
  | none => default_config
  | some config => pyDictMerge default_config config

/-- A probe scraper callable whose three calling conventions return three
distinct values, so the dispatch path taken is observable in the result:
`call_city` returns 1, `call_noargs` returns 2, `call_max` returns 3; its
signature does not accept `max_products`. -/
def probeScraper : ScraperFn :=
  ⟨false, fun _ _ => Except.ok (some 1), fun _ => Except.ok (some 3),
    Except.ok (some 2)⟩

/-- An environment that resolves every market to `probeScraper`. -/
def probeEnv : ScraperEnv := ⟨fun _ _ => Except.ok probeScraper⟩

/-- An environment in which every scraper resolution raises. -/
def failEnv : ScraperEnv := ⟨fun _ _ => Except.error "boom"⟩

/-- A small concrete scheduler configuration for instantiations. -/
def sampleSched : SchedulerConfig :=
  ⟨⟨true, ["Madrid", "Barcelona"], ["Murcia"], 7⟩, []⟩

/-- The dispatch trace of a market loop: the markets of the calls it appends
are exactly the markets of the iterated list, in order, independent of the
scraper environment and of the results. -/
theorem runLoop_markets (env : ScraperEnv) (ca : Option (List String)) (cap : Nat) :
    ∀ (ms : List String) (acc : List DispatchCall × Int),
      (runLoop env ca cap ms acc).1.map (fun c => c.market) =
        acc.1.map (fun c => c.market) ++ ms := by
  intro ms
  induction ms with
  | nil => intro acc; simp [runLoop]
  | cons m rest ih =>
    intro acc
    rw [runLoop, ih]
    simp

/-- The accumulation invariant of a market loop: if the incoming total is
the sum of `products or 0` over the incoming trace, the outgoing total is
that sum over the outgoing trace. -/
theorem runLoop_total (env : ScraperEnv) (ca : Option (List String)) (cap : Nat) :
    ∀ (ms : List String) (acc : List DispatchCall × Int),
      acc.2 = (acc.1.map (fun c => pyOrZero c.result)).sum →
      (runLoop env ca cap ms acc).2 =
        ((runLoop env ca cap ms acc).1.map (fun c => pyOrZero c.result)).sum := by
  intro ms
  induction ms with
  | nil => intro acc h; simpa [runLoop] using h
  | cons m rest ih =>
    intro acc h
    rw [runLoop]
    exact ih _ (by simp [h])

/-- Dict lookup distributes over append: the left list wins. -/
theorem dictLookup_append {α : Type} (k : String) :
    ∀ xs ys : List (String × α),
      dictLookup k (xs ++ ys) =
        match dictLookup k xs with
        | some v => some v
        | none => dictLookup k ys := by
  intro xs ys
  induction xs with
  | nil => simp [dictLookup]
  | cons p rest ih =>
    obtain ⟨k2, v⟩ := p
    by_cases h : k = k2 <;> simp [dictLookup, h, ih]

/-- Lookup in the override part of `pyDictMerge`: each key of `a` maps to
the `b` value when `b` has the key, else to its own value. -/
theorem dictLookup_map_override {α : Type} (b : List (String × α)) :
    ∀ (a : List (String × α)) (k : String),
      dictLookup k (a.map (fun p => (p.1, (dictLookup p.1 b).getD p.2))) =
        (dictLookup k a).map (fun v => (dictLookup k b).getD v) := by
  intro a
  induction a with
  | nil => intro k; simp [dictLookup]
  | cons p rest ih =>
    intro k
    obtain ⟨k2, v⟩ := p
    by_cases h : k = k2 <;> simp [dictLookup, h, ih]

/-- Lookup of a key absent from `a` passes through the filter that drops
entries whose key is in `a`. -/
theorem dictLookup_filter {α : Type} (a : List (String × α)) (k : String)
    (hk : dictLookup k a = none) :
    ∀ b : List (String × α),
      dictLookup k (b.filter (fun q => (dictLookup q.1 a).isNone)) =
        dictLookup k b := by
  intro b
  induction b with
  | nil => simp
  | cons q rest ih =>
    obtain ⟨k2, v⟩ := q
    by_cases h : k = k2
    · subst h
      simp [List.filter_cons, hk, dictLookup, ih]
    · by_cases hc : (dictLookup k2 a).isNone <;>
        simp [List.filter_cons, hc, dictLookup, h, ih]

/-- Lookup in a Python dict merge: the overlay wins key by key. -/
theorem dictLookup_pyDictMerge (a b : List (String × JVal)) (k : String) :
    dictLookup k (pyDictMerge a b) =
      match dictLookup k b with
      | some v => some v
      | none => dictLookup k a := by
  unfold pyDictMerge
  rw [dictLookup_append, dictLookup_map_override]
  cases ha : dictLookup k a with
  | some v =>
    cases hb : dictLookup k b <;> simp [hb]
  | none =>
    rw [dictLookup_filter a k ha b]
    cases hb : dictLookup k b <;> simp [hb]

/-- The partition comprehension of `scrape_specific_city_markets` raises
KeyError whenever its market list contains an unregistered name. -/
theorem filterBySupport_error (want : Bool) :
    ∀ ms : List String,
      (∃ m, m ∈ ms ∧ dictLookup m MARKET_CONFIGS = none) →
      ∃ e, filterBySupport want ms = Except.error e := by
  intro ms
  induction ms with
  | nil => rintro ⟨m, hm, _⟩; cases hm
  | cons m rest ih =>
    rintro ⟨x, hx, hlook⟩
    rcases List.mem_cons.mp hx with h | h
    · subst h
      exact ⟨"KeyError: " ++ x, by simp [filterBySupport, hlook]⟩
    · cases hm : dictLookup m MARKET_CONFIGS with
      | none => exact ⟨"KeyError: " ++ m, by simp [filterBySupport, hm]⟩
      | some c =>
        obtain ⟨e, he⟩ := ih ⟨x, h, hlook⟩
        refine ⟨e, ?_⟩
        by_cases hw : c.city_support = want <;>
          simp [filterBySupport, hm, hw, he, Except.bind]

/-- C1 counterexample: dispatching the city-aware market `carrefour` with an
empty city list does NOT use the city-aware calling convention — with a
probe scraper whose city-aware convention returns 1 and whose no-argument
single-location convention returns 2, the dispatch with an empty city list
returns 2 (the single-location fallback), while a non-empty city list
returns 1. -/
theorem c1_counterexample :
    (run_market_scraper probeEnv "carrefour" (some []) none).2 = some 2 ∧
    (run_market_scraper probeEnv "carrefour" (some ["Madrid"]) none).2 = some 1 ∧
    probeScraper.call_noargs = Except.ok (some 2) ∧
    probeScraper.call_city [] 40 = Except.ok (some 1) :=
  ⟨rfl, rfl, rfl, rfl⟩

/-- C1 (amended): for every market and every cap, dispatching with an empty
city list behaves identically to dispatching with no city list at all — the
truthiness test `config['city_support'] and cities` fails on an empty list,
so the dispatcher silently falls back to the single-location calling
convention. -/
theorem c1_empty_city_list_single_location :
    ∀ (env : ScraperEnv) (name : String) (cap : Option Nat),
      run_market_scraper env name (some []) cap =
        run_market_scraper env name none cap := by
  intro env name cap
  unfold run_market_scraper
  cases h : dictLookup name MARKET_CONFIGS with
  | none => rfl
  | some config => rfl

/-- C2 counterexample: `scrape_specific_city_markets` on a list containing
the registered market `carrefour` and the unknown name `nosuchmarket`
raises KeyError (the partition subscripts the registry directly), instead
of warning, skipping the unknown name and dispatching `carrefour`. -/
theorem c2_counterexample :
    scrape_specific_city_markets probeEnv "Madrid" ["carrefour", "nosuchmarket"] 30 =
      Except.error "KeyError: nosuchmarket" := rfl

/-- C2 (amended): for every city, cap and environment, if the caller's
market list contains any name absent from the Market Registry then
`scrape_specific_city_markets` raises (KeyError from the partition
comprehension); no market of the list is dispatched and no warning no-op
occurs. -/
theorem c2_unknown_market_raises :
    ∀ (env : ScraperEnv) (city : String) (markets : List String) (cap : Nat),
      (∃ m, m ∈ markets ∧ dictLookup m MARKET_CONFIGS = none) →
      ∃ e, scrape_specific_city_markets env city markets cap = Except.error e := by
  intro env city markets cap hex
  obtain ⟨e, he⟩ := filterBySupport_error true markets hex
  exact ⟨e, by simp [scrape_specific_city_markets, he, Except.bind]⟩

/-- C2 witness: a concrete instantiation of the amended claim at the list
`["lidl", "zzz"]`, whose second element is unregistered. -/
theorem c2_witness :
    ∃ e, scrape_specific_city_markets probeEnv "Barcelona" ["lidl", "zzz"] 10 =
      Except.error e :=
  c2_unknown_market_raises probeEnv "Barcelona" ["lidl", "zzz"] 10
    ⟨"zzz", by simp, rfl⟩

/-- C3: (1) for every registered market, whenever the try block of the
dispatcher (scraper resolution and invocation) raises, `run_market_scraper`
catches the exception and returns 0; (2) the sequence of markets dispatched
by a campaign (`scrape_comprehensive_multi_city`) is independent of the
scraper environment — in particular a scraper that raises does not prevent
any subsequent market of the same campaign from being dispatched. -/
theorem c3_scraper_failure_isolated :
    (∀ (env : ScraperEnv) (name : String) (config : MarketConfig)
       (cities : Option (List String)) (cap : Option Nat) (e : String),
       dictLookup name MARKET_CONFIGS = some config →
       runAttempt env config cities cap = Except.error e →
       (run_market_scraper env name cities cap).2 = some 0) ∧
    (∀ (env env2 : ScraperEnv) (cities_data : List CityInfo)
       (cities : Option (List String)) (markets : Option (List String))
       (mpc mpm : Nat),
       (scrape_comprehensive_multi_city env cities_data cities markets mpc mpm).map
           (fun p => p.1.map (fun c => c.market)) =
         (scrape_comprehensive_multi_city env2 cities_data cities markets mpc mpm).map
           (fun p => p.1.map (fun c => c.market))) := by
  constructor
  · intro env name config cities cap e h1 h2
    simp [run_market_scraper, h1, h2]
  · intro env env2 cities_data cities markets mpc mpm
    unfold scrape_comprehensive_multi_city
    by_cases h : cities_data.isEmpty
    · simp [h]
    · simp [h, runLoop_markets]

/-- C3 witness: in the environment where every resolution raises, the
dispatch of the registered market `lidl` returns 0. -/
theorem c3_witness :
    dictLookup "lidl" MARKET_CONFIGS =
      some ⟨false, "scraper.lidl", "scrape_lidl", ["alimentacion", "bebidas"],
            none, some 80, none, some (25, 40)⟩ ∧
    (run_market_scraper failEnv "lidl" none none).2 = some 0 :=
  ⟨rfl, c3_scraper_failure_isolated.1 failEnv "lidl"
    ⟨false, "scraper.lidl", "scrape_lidl", ["alimentacion", "bebidas"],
     none, some 80, none, some (25, 40)⟩ none none "boom" rfl rfl⟩

/-- C4: with rotation enabled and `rotation_days = 7`, every day of week in
0..4 yields exactly the first 5 configured major cities in configured
order, and days 5 and 6 yield the first 3 major cities followed by the
first 2 minor cities. -/
theorem c4_rotation_seven_days :
    ∀ (major minor : List String),
      get_cities_for_rotation ⟨true, major, minor, 7⟩ 0 = major.take 5 ∧
      get_cities_for_rotation ⟨true, major, minor, 7⟩ 1 = major.take 5 ∧
      get_cities_for_rotation ⟨true, major, minor, 7⟩ 2 = major.take 5 ∧
      get_cities_for_rotation ⟨true, major, minor, 7⟩ 3 = major.take 5 ∧
      get_cities_for_rotation ⟨true, major, minor, 7⟩ 4 = major.take 5 ∧
      get_cities_for_rotation ⟨true, major, minor, 7⟩ 5 =
        major.take 3 ++ minor.take 2 ∧
      get_cities_for_rotation ⟨true, major, minor, 7⟩ 6 =
        major.take 3 ++ minor.take 2 :=
  fun _ _ => ⟨rfl, rfl, rfl, rfl, rfl, rfl, rfl⟩

/-- C5: for every market name absent from the Market Registry and every
environment, city list and cap, `run_market_scraper` returns 0 with the
unknown-market warning as its only output, and (being total) raises no
exception. -/
theorem c5_unknown_market_returns_zero :
    ∀ (name : String), dictLookup name MARKET_CONFIGS = none →
      ∀ (env : ScraperEnv) (cities : Option (List String)) (cap : Option Nat),
        run_market_scraper env name cities cap =
          (["Unknown market: " ++ name], some 0) := by
  intro name h env cities cap
  simp [run_market_scraper, h]

/-- C5 witness: the unregistered name `nosuchmarket`. -/
theorem c5_witness :
    dictLookup "nosuchmarket" MARKET_CONFIGS = none ∧
    run_market_scraper probeEnv "nosuchmarket" none none =
      (["Unknown market: nosuchmarket"], some 0) :=
  ⟨rfl, c5_unknown_market_returns_zero "nosuchmarket" rfl probeEnv none none⟩

/-- C6: whenever `scrape_comprehensive_multi_city` completes, the reported
total equals the sum over every dispatch performed of `products or 0`
(`pyOrZero`), so a `None` or 0 dispatch result contributes zero. -/
theorem c6_total_is_sum_of_dispatches :
    ∀ (env : ScraperEnv) (cities_data : List CityInfo)
      (cities : Option (List String)) (markets : Option (List String))
      (mpc mpm : Nat) (calls : List DispatchCall) (total : Int),
      scrape_comprehensive_multi_city env cities_data cities markets mpc mpm =
        some (calls, total) →
      total = (calls.map (fun c => pyOrZero c.result)).sum := by
  intro env cities_data cities markets mpc mpm calls total h
  unfold scrape_comprehensive_multi_city at h
  by_cases hcd : cities_data.isEmpty
  · simp [hcd] at h
  · simp only [hcd, if_false, Bool.false_eq_true, Option.some.injEq] at h
    have h1 := runLoop_total env (some (targetCities cities_data cities)) mpc
      ((availableMarkets markets).filter (fun m => marketCitySupport m)) ([], 0)
      (by simp)
    have h2 := runLoop_total env none mpm
      ((availableMarkets markets).filter (fun m => !marketCitySupport m))
      _ h1
    rw [h] at h2
    exact h2

/-- C6 witness: a campaign over `carrefour` and `lidl` in the environment
where every scraper raises — both dispatches are performed, each yields 0,
and the total 0 is their sum. -/
theorem c6_witness :
    scrape_comprehensive_multi_city failEnv [⟨"Madrid", 3000000⟩] (some ["Madrid"])
        (some ["carrefour", "lidl"]) 10 20 =
      some ([⟨"carrefour", some ["Madrid"], some 10, some 0⟩,
             ⟨"lidl", none, some 20, some 0⟩], 0) ∧
    (0 : Int) =
      (([⟨"carrefour", some ["Madrid"], some 10, some 0⟩,
         ⟨"lidl", none, some 20, some 0⟩] : List DispatchCall).map
        (fun c => pyOrZero c.result)).sum :=
  ⟨rfl, c6_total_is_sum_of_dispatches failEnv [⟨"Madrid", 3000000⟩] (some ["Madrid"])
    (some ["carrefour", "lidl"]) 10 20
    [⟨"carrefour", some ["Madrid"], some 10, some 0⟩,
     ⟨"lidl", none, some 20, some 0⟩] 0 rfl⟩

/-- C7: `load_schedule_config` returns the built-in defaults verbatim when
the persisted file is absent; otherwise it returns the shallow merge
`{**default_config, **stored}`, in which lookup of any top-level key yields
the stored value when the stored file has the key (replacing the default
wholesale) and the default value otherwise. -/
theorem c7_config_load_shallow_merge :
    load_schedule_config none = default_config ∧
    ∀ (stored : List (String × JVal)) (k : String),
      dictLookup k (load_schedule_config (some stored)) =
        match dictLookup k stored with
        | some v => some v
        | none => dictLookup k default_config :=
  ⟨rfl, fun stored k => dictLookup_pyDictMerge default_config stored k⟩

/-- C8: the city-aware scheduled handler, applied to a market registered
with `city_support = false`, performs zero dispatches and outputs exactly
the mismatch warning; symmetrically for the single-location handler on a
market registered with `city_support = true`. Both handlers are total, so
neither mismatch raises. -/
theorem c8_handler_mismatch_rejected :
    ∀ (env : ScraperEnv) (sched : SchedulerConfig) (today : Nat)
      (name : String) (mc : MarketConfig),
      dictLookup name MARKET_CONFIGS = some mc →
      (mc.city_support = false →
        run_city_supporting_market env sched today name =
          ([name ++ " does not support cities, skipping city rotation"], [])) ∧
      (mc.city_support = true →
        run_single_location_market env sched name =
          ([name ++ " supports cities, use run_city_supporting_market instead"], [])) := by
  intro env sched today name mc h
  constructor
  · intro hcs
    simp [run_city_supporting_market, h, hcs]
  · intro hcs
    simp [run_single_location_market, h, hcs]

/-- C8 witness: `lidl` (single-location) rejected by the city-aware handler
and `carrefour` (city-aware) rejected by the single-location handler. -/
theorem c8_witness :
    run_city_supporting_market probeEnv sampleSched 0 "lidl" =
      (["lidl does not support cities, skipping city rotation"], []) ∧
    run_single_location_market probeEnv sampleSched "carrefour" =
      (["carrefour supports cities, use run_city_supporting_market instead"], []) :=
  ⟨(c8_handler_mismatch_rejected probeEnv sampleSched 0 "lidl" _ rfl).1 rfl,
   (c8_handler_mismatch_rejected probeEnv sampleSched 0 "carrefour" _ rfl).2 rfl⟩

/-- C9: with rotation disabled, `get_cities_for_rotation` returns the first
5 configured major cities for every day of week, independent of
`rotation_days` and of the minor-city list. -/
theorem c9_rotation_disabled_first_five :
    ∀ (major minor : List String) (rotation_days day : Nat),
      get_cities_for_rotation ⟨false, major, minor, rotation_days⟩ day =
        major.take 5 :=
  fun _ _ _ _ => rfl

/-- C10: dispatching any market with an explicit cap of 0 behaves
identically to dispatching it with no cap (`0 or default` and
`None or default` both fall through to the registry default), and the cap
the falsy fallback combines with a present registry default is exactly that
default, never 0. -/
theorem c10_zero_cap_equals_no_cap :
    (∀ (env : ScraperEnv) (name : String) (cities : Option (List String)),
      run_market_scraper env name cities (some 0) =
        run_market_scraper env name cities none) ∧
    (∀ d : Nat, pyOrKey (some 0) (some d) = Except.ok d) := by
  constructor
  · intro env name cities
    unfold run_market_scraper
    cases h : dictLookup name MARKET_CONFIGS with
    | none => rfl
    | some config => rfl
  · intro d
    rfl
